import Mathlib

/-!
Shallow embedding of the broadcast core of the `aiogram-broadcast` library
(files `aiogram_broadcast/models.py`, `aiogram_broadcast/storage/base.py`,
`aiogram_broadcast/storage/redis.py`, `aiogram_broadcast/service.py`,
`aiogram_broadcast/scheduler.py`).

Conventions of the embedding:
* Telegram user ids are `Int`, message texts are `String`.
* The Redis hash `broadcast:subscribers` (field `user_id`, value the
  JSON-encoded subscriber) is modelled as an insertion-ordered association
  list `List (Int × Subscriber)`; `HSET` replaces the value of an existing
  field in place and appends a fresh field at the end, which is exactly the
  update-or-append operation `assocSet` below.  JSON round-tripping through
  `Subscriber.to_dict`/`from_dict` is the identity and is elided.
* Python `dict` (used for `BroadcastResult.errors`) has the same
  insertion-ordered update-or-append semantics and reuses `assocSet`.
* `async` code is sequential in the source (one awaited call at a time), so
  it is embedded as ordinary state passing.  `asyncio.sleep` calls are
  recorded in a trace (`sleeps : List ℚ`); durations are rationals since the
  source multiplies the float `retry_delay` by an integer attempt number.
* Exceptions raised by the per-recipient `sender` are modelled by the
  outcome type `SendOutcome`; a sender behaviour is a function from the
  0-based attempt index (per recipient) to an outcome.
* Logging calls have no observable effect and are elided.
-/

set_option autoImplicit false

namespace Broadcast

/-- `SubscriberState` from `models.py`: `member` / `kicked`. -/
inductive SubscriberState where
  | member
  | kicked
deriving DecidableEq, Repr

/-- `Subscriber` dataclass from `models.py` (the `subscribed_at` ISO string
is kept as an opaque string). -/
structure Subscriber where
  id : Int
  full_name : String
  username : Option String := none
  language_code : Option String := none
  state : SubscriberState := .member
  subscribed_at : String := ""
deriving DecidableEq, Repr

/-- `Subscriber.is_active` from `models.py`. -/
def Subscriber.is_active (s : Subscriber) : Bool :=
  s.state == .member

/-- Update-or-append on an insertion-ordered association list: the shared
semantics of Redis `HSET` on a hash field and of Python `d[k] = v` on a
`dict`.  The first entry with the given key is replaced in place; if no
entry has the key, a fresh entry is appended. -/
def assocSet {α : Type} (l : List (Int × α)) (k : Int) (v : α) : List (Int × α) :=
  match l with
  | [] => [(k, v)]
  | (k', v') :: rest =>
      if k' = k then (k, v) :: rest else (k', v') :: assocSet rest k v

/-- Key lookup on an association list: Redis `HGET` / Python `d.get(k)`. -/
def assocGet {α : Type} (l : List (Int × α)) (k : Int) : Option α :=
  match l with
  | [] => none
  | (k', v') :: rest => if k' = k then some v' else assocGet rest k

/-- `BroadcastResult` dataclass from `models.py`.  `errors` is the
insertion-ordered `dict[int, str]`. -/
structure BroadcastResult where
  total : Nat := 0
  successful : Nat := 0
  failed : Nat := 0
  blocked_users : List Int := []
  errors : List (Int × String) := []
deriving DecidableEq, Repr

/-- `BroadcastResult.add_success` from `models.py`. -/
def BroadcastResult.add_success (r : BroadcastResult) : BroadcastResult :=
  { r with successful := r.successful + 1 }

/-- `BroadcastResult.add_failure` from `models.py`. -/
def BroadcastResult.add_failure (r : BroadcastResult) (user_id : Int)
    (error : String) (is_blocked : Bool := false) : BroadcastResult :=
  { r with
    failed := r.failed + 1
    errors := assocSet r.errors user_id error
    blocked_users :=
      if is_blocked then r.blocked_users ++ [user_id] else r.blocked_users }

/-- `BroadcastResult.success_rate` from `models.py`. -/
def BroadcastResult.success_rate (r : BroadcastResult) : ℚ :=
  if r.total = 0 then 0 else (r.successful : ℚ) / (r.total : ℚ) * 100

/-! ## Storage (`storage/redis.py` over the `storage/base.py` contract) -/

/-- The Redis hash holding the subscribers, insertion ordered. -/
abbrev Storage := List (Int × Subscriber)

/-- `RedisBroadcastStorage.add_subscriber`: `HSET subscribers str(sub.id)
json(sub)` — an unconditional upsert. -/
def add_subscriber (st : Storage) (sub : Subscriber) : Storage :=
  assocSet st sub.id sub

/-- `RedisBroadcastStorage.get_subscriber`: `HGET` plus JSON decode. -/
def get_subscriber (st : Storage) (user_id : Int) : Option Subscriber :=
  assocGet st user_id

/-- `RedisBroadcastStorage.update_subscriber`: delegates to
`add_subscriber`. -/
def update_subscriber (st : Storage) (sub : Subscriber) : Storage :=
  add_subscriber st sub

/-- `BaseBroadcastStorage.update_subscriber_state`: fetch, mutate the
`state` field, write back; returns `false` and leaves the storage unchanged
when the subscriber is absent. -/
def update_subscriber_state (st : Storage) (user_id : Int)
    (state : SubscriberState) : Storage × Bool :=
  match get_subscriber st user_id with
  | none => (st, false)
  | some sub => (update_subscriber st { sub with state := state }, true)

/-- `RedisBroadcastStorage.get_all_subscriber_ids`: with no filter, `HKEYS`
(insertion order); with a state filter, the ids of the subscribers whose
state matches, in the same iteration order. -/
def get_all_subscriber_ids (st : Storage) (state : Option SubscriberState) :
    List Int :=
  match state with
  | none => st.map (·.1)
  | some s => (st.filter (fun p => p.2.state == s)).map (·.1)

/-- `RedisBroadcastStorage.get_subscribers_count`. -/
def get_subscribers_count (st : Storage) (state : Option SubscriberState) : Nat :=
  match state with
  | none => st.length
  | some s => (st.filter (fun p => p.2.state == s)).length

/-! ## The sender capability (`service.py`) -/

/-- Outcome of one `await sender(user_id)` call, classifying the exceptions
caught by `BroadcastService._send_with_retry`:
`TelegramForbiddenError`, `TelegramRetryAfter` (with its integer
`retry_after` seconds), any other `TelegramAPIError`, and any other
exception. -/
inductive SendOutcome where
  | ok
  | forbidden (msg : String)
  | retryAfter (seconds : Nat)
  | apiError (msg : String)
  | unexpected (msg : String)
deriving DecidableEq, Repr

/-- `startsWithChars n h` : the char list `n` is an initial segment of `h`
(helper for the Python `in` substring test). -/
def startsWithChars : List Char → List Char → Bool
  | [], _ => true
  | _ :: _, [] => false
  | c :: cs, d :: ds => c == d && startsWithChars cs ds

/-- `hasSubChars n h` : the char list `n` occurs contiguously in `h`
(Python's `n in h` on strings). -/
def hasSubChars : List Char → List Char → Bool
  | n, [] => n.isEmpty
  | n, c :: hs => startsWithChars n (c :: hs) || hasSubChars n hs

/-- The blocked-user test in `_send_with_retry`:
`"blocked" in error_msg.lower() or "kicked" in error_msg.lower()`
(`str.lower` is the per-character lowering, applied to the message's
character list). -/
def isBlockedMsg (msg : String) : Bool :=
  hasSubChars "blocked".toList (msg.toList.map Char.toLower)
    || hasSubChars "kicked".toList (msg.toList.map Char.toLower)

/-! ## `BroadcastService._send_with_retry` -/

/-- Observable outcome of one `_send_with_retry` call: the boolean return
value, the updated accumulator and storage, the number of `sender`
invocations made for this recipient, and the `asyncio.sleep` durations, in
order. -/
structure SendRet where
  success : Bool
  result : BroadcastResult
  storage : Storage
  calls : Nat
  sleeps : List ℚ
deriving DecidableEq, Repr

/-- The body of the `for attempt in range(self._max_retries)` loop of
`_send_with_retry`, iterating over the list of remaining attempt indices
(initially `List.range max_retries`, mirroring Python's `range`).  Falling
off the end of the list is the `return False` after the loop. -/
def send_attempts (max_retries : Nat) (retry_delay : ℚ)
    (sender : Nat → SendOutcome) (user_id : Int) :
    List Nat → BroadcastResult → Storage → Nat → List ℚ → SendRet
  | [], res, st, calls, sleeps => ⟨false, res, st, calls, sleeps⟩
  | attempt :: rest, res, st, calls, sleeps =>
      match sender attempt with
      | .ok => ⟨true, res.add_success, st, calls + 1, sleeps⟩
      | .forbidden msg =>
          let is_blocked := isBlockedMsg msg
          let res' := res.add_failure user_id msg is_blocked
          let st' :=
            if is_blocked then (update_subscriber_state st user_id .kicked).1
            else st
          ⟨false, res', st', calls + 1, sleeps⟩
      | .retryAfter seconds =>
          send_attempts max_retries retry_delay sender user_id rest
            res st (calls + 1) (sleeps ++ [(seconds : ℚ)])
      | .apiError msg =>
          if attempt < max_retries - 1 then
            send_attempts max_retries retry_delay sender user_id rest
              res st (calls + 1) (sleeps ++ [retry_delay * (attempt + 1)])
          else
            ⟨false, res.add_failure user_id msg, st, calls + 1, sleeps⟩
      | .unexpected msg =>
          ⟨false, res.add_failure user_id msg, st, calls + 1, sleeps⟩

/-- `BroadcastService._send_with_retry` for one recipient. -/
def send_with_retry (max_retries : Nat) (retry_delay : ℚ)
    (sender : Nat → SendOutcome) (user_id : Int)
    (res : BroadcastResult) (st : Storage) : SendRet :=
  send_attempts max_retries retry_delay sender user_id
    (List.range max_retries) res st 0 []

/-! ## `BroadcastService._broadcast`

The wrappers `broadcast_text` / `broadcast_photo` / `broadcast_video` /
`broadcast_document` / `broadcast_copy` / `broadcast_custom` each build a
`sender` closure for their payload and delegate to `_broadcast`, so
`_broadcast` is the single dispatch algorithm; the embedding takes the
sender behaviour (per recipient, per attempt) as a parameter.

The `await` points of the delivery loop are the only places where the rest
of the application can run; the parameter `interference` models arbitrary
concurrent storage mutation (adding / removing / rewriting subscribers)
between loop iterations.  A storage fault raised by
`get_all_subscriber_ids` during the snapshot is modelled by
`snapshot_fault`; per-recipient `sender` exceptions are all caught inside
`_send_with_retry` and never reach `_broadcast`.  Progress-callback
invocations only log on error and cannot affect the engine state; they are
not traced. -/

/-- Errors that `_broadcast` can raise: the single-flight guard violation
(`BroadcastInProgressError`) and a storage-layer fault during the snapshot
(whatever exception the storage raised, carried as a message). -/
inductive BroadcastErr where
  | inProgress (msg : String)
  | storageFault (msg : String)
deriving DecidableEq, Repr

/-- The mutable state of a `BroadcastService` instance: its storage and the
`_in_progress` flag. -/
structure ServiceState where
  storage : Storage
  in_progress : Bool
deriving DecidableEq, Repr

/-- Observable outcome of one `_broadcast` call: the returned
`BroadcastResult` or the raised error, the final service state, and the
snapshot of recipient ids the delivery loop iterated over. -/
structure BroadcastRet where
  outcome : Except BroadcastErr BroadcastResult
  state : ServiceState
  attempted : List Int
deriving Repr

/-- The `for i, user_id in enumerate(subscriber_ids, 1)` delivery loop of
`_broadcast`, threading the result accumulator and the storage through
`_send_with_retry`; `interference` is applied to the storage at the start
of each iteration, modelling concurrent mutation at the loop's `await`
points. -/
def broadcast_loop (max_retries : Nat) (retry_delay : ℚ)
    (sender : Int → Nat → SendOutcome) (interference : Nat → Storage → Storage) :
    List Int → Nat → BroadcastResult → Storage → BroadcastResult × Storage
  | [], _, res, st => (res, st)
  | user_id :: rest, i, res, st =>
      let st0 := interference i (st : Storage)
      let r := send_with_retry max_retries retry_delay (sender user_id) user_id res st0
      broadcast_loop max_retries retry_delay sender interference rest (i + 1)
        r.result r.storage

/-- `BroadcastService._broadcast`.  `snapshot_fault = some m` makes the
`get_all_subscriber_ids` call raise a storage error with message `m`;
`none` makes it return the filtered id list of the current storage. -/
def broadcast_run (max_retries : Nat) (retry_delay : ℚ)
    (sender : Int → Nat → SendOutcome) (only_active : Bool)
    (snapshot_fault : Option String)
    (interference : Nat → Storage → Storage) (s : ServiceState) : BroadcastRet :=
  if s.in_progress then
    ⟨.error (.inProgress "Another broadcast is already in progress"), s, []⟩
  else
    -- `self._in_progress = True`; the `try ... finally` clears it on every
    -- exit path below.
    match snapshot_fault with
    | some m => ⟨.error (.storageFault m), ⟨s.storage, false⟩, []⟩
    | none =>
        let state_filter : Option SubscriberState :=
          if only_active then some .member else none
        let subscriber_ids := get_all_subscriber_ids s.storage state_filter
        let res0 : BroadcastResult := { total := subscriber_ids.length }
        let (res, st') :=
          broadcast_loop max_retries retry_delay sender interference
            subscriber_ids 1 res0 s.storage
        ⟨.ok res, ⟨st', false⟩, subscriber_ids⟩

/-! ## `BroadcastScheduler` (`scheduler.py`) -/

/-- Payload descriptor of a scheduled task (`BroadcastTask.content` plus
`content_type`). -/
inductive TaskContent where
  | text (body : String)
  | photo (file_id : String)
  | copy (from_chat_id : Int) (message_id : Int)
deriving DecidableEq, Repr

/-- `BroadcastTask` from `models.py`, as the scheduler stores it (the
open-ended `kwargs` bag does not influence any claim and is elided). -/
structure BroadcastTask where
  id : String
  content : TaskContent
  scheduled_at : Int
deriving DecidableEq, Repr

/-- Errors the scheduler can raise. -/
inductive SchedulerErr where
  | notConfigured (msg : String)
deriving DecidableEq, Repr

/-- State of a `BroadcastScheduler`: whether an APScheduler backend was
passed to the constructor, the job ids registered with that backend, and
the `_pending_tasks` table (insertion ordered). -/
structure SchedulerState where
  configured : Bool
  jobs : List String
  pending_tasks : List (String × BroadcastTask)
deriving DecidableEq, Repr

/-- `BroadcastScheduler._ensure_scheduler`. -/
def ensure_scheduler (s : SchedulerState) : Except SchedulerErr Unit :=
  if s.configured then .ok ()
  else .error (.notConfigured
    "APScheduler is not configured. Pass scheduler to constructor.")

/-- `task_id`-keyed update of the pending table (`self._pending_tasks[task_id]
= task`): tasks are keyed by strings, so this is the string-keyed variant of
`assocSet`. -/
def taskSet (l : List (String × BroadcastTask)) (k : String) (v : BroadcastTask) :
    List (String × BroadcastTask) :=
  match l with
  | [] => [(k, v)]
  | (k', v') :: rest =>
      if k' = k then (k, v) :: rest else (k', v') :: taskSet rest k v

/-- String-keyed lookup in the pending table. -/
def taskGet (l : List (String × BroadcastTask)) (k : String) : Option BroadcastTask :=
  match l with
  | [] => none
  | (k', v') :: rest => if k' = k then some v' else taskGet rest k

/-- `self._pending_tasks.pop(task_id, None)`: drop the entry with the key. -/
def taskPop (l : List (String × BroadcastTask)) (k : String) :
    List (String × BroadcastTask) :=
  l.filter (fun p => p.1 ≠ k)

/-- `scheduler.add_job(..., id=task_id, replace_existing=True)`: registers
the job id with the backend (keeping it unique). -/
def add_job (jobs : List String) (task_id : String) : List String :=
  if jobs.contains task_id then jobs else jobs ++ [task_id]

/-- Common body of `schedule_text` / `schedule_photo` / `schedule_copy`:
guard on the backend, build the `BroadcastTask`, register the job, record
the pending task, return the task id.  The generated
`broadcast_<uuid4-hex-8>` task id is passed in as `task_id` (the embedding
is deterministic).  On the guard error the state is returned unchanged. -/
def schedule_task (task_id : String) (content : TaskContent) (run_date : Int)
    (s : SchedulerState) : Except SchedulerErr String × SchedulerState :=
  match ensure_scheduler s with
  | .error e => (.error e, s)
  | .ok () =>
      let task : BroadcastTask := ⟨task_id, content, run_date⟩
      (.ok task_id,
        { s with
          jobs := add_job s.jobs task_id
          pending_tasks := taskSet s.pending_tasks task_id task })

/-- `BroadcastScheduler.schedule_text`. -/
def schedule_text (task_id : String) (text : String) (run_date : Int)
    (s : SchedulerState) : Except SchedulerErr String × SchedulerState :=
  schedule_task task_id (.text text) run_date s

/-- `BroadcastScheduler.schedule_photo`. -/
def schedule_photo (task_id : String) (photo : String) (run_date : Int)
    (s : SchedulerState) : Except SchedulerErr String × SchedulerState :=
  schedule_task task_id (.photo photo) run_date s

/-- `BroadcastScheduler.schedule_copy`. -/
def schedule_copy (task_id : String) (from_chat_id : Int) (message_id : Int)
    (run_date : Int) (s : SchedulerState) :
    Except SchedulerErr String × SchedulerState :=
  schedule_task task_id (.copy from_chat_id message_id) run_date s

/-- `BroadcastScheduler.cancel`: guard on the backend, then
`scheduler.remove_job(task_id)` — which raises when the job id is unknown,
in which case the `except` clause returns `False` before the pending-table
pop runs — then pop the pending entry and return `True`. -/
def cancel (task_id : String) (s : SchedulerState) :
    Except SchedulerErr Bool × SchedulerState :=
  match ensure_scheduler s with
  | .error e => (.error e, s)
  | .ok () =>
      if s.jobs.contains task_id then
        (.ok true,
          { s with
            jobs := s.jobs.filter (· ≠ task_id)
            pending_tasks := taskPop s.pending_tasks task_id })
      else
        (.ok false, s)

/-! ## Fired scheduled tasks (`_execute_*_broadcast`) -/

/-- Observable outcome of `_execute_text_broadcast` (and its photo / copy
twins, which differ only in which `broadcast_*` wrapper they call): the
`(task_id, result)` invocations of the completion callback, the
`(task_id, error)` invocations of the error callback, the exception (if
any) propagating out into the APScheduler executor, and the pending table
after the `finally` clause. -/
structure ExecRet where
  completion_calls : List (String × BroadcastResult)
  error_calls : List (String × String)
  raised : Option String
  pending_tasks : List (String × BroadcastTask)
deriving Repr

/-- `BroadcastScheduler._handle_completion`: invoke `on_complete` when
configured; its exception (the callback behaviours map their arguments to
`some message` when they raise) is caught and logged. -/
def handle_completion (on_complete : Option (String → BroadcastResult → Option String))
    (task_id : String) (result : BroadcastResult) :
    List (String × BroadcastResult) :=
  match on_complete with
  | none => []
  | some cb =>
      -- `try: await cb(...) except Exception: log` — the raised value
      -- `cb task_id result` is swallowed.
      let _ := cb task_id result
      [(task_id, result)]

/-- `BroadcastScheduler._handle_error`: invoke `on_error` when configured;
its exception is caught and logged. -/
def handle_error (on_error : Option (String → String → Option String))
    (task_id : String) (error : String) : List (String × String) :=
  match on_error with
  | none => []
  | some cb =>
      let _ := cb task_id error
      [(task_id, error)]

/-- `BroadcastScheduler._execute_text_broadcast`: run the dispatch call
(whose outcome — the `BroadcastResult`, or the raised exception's message —
is `dispatch`), route it to exactly one of `_handle_completion` /
`_handle_error`, and pop the pending entry in the `finally` clause. -/
def execute_broadcast (dispatch : Except String BroadcastResult)
    (on_complete : Option (String → BroadcastResult → Option String))
    (on_error : Option (String → String → Option String))
    (task_id : String) (pending : List (String × BroadcastTask)) : ExecRet :=
  match dispatch with
  | .ok result =>
      ⟨handle_completion on_complete task_id result, [], none,
        taskPop pending task_id⟩
  | .error e =>
      ⟨[], handle_error on_error task_id e, none, taskPop pending task_id⟩

/-! ## Helper lemmas -/

theorem assocGet_assocSet_eq {α : Type} (l : List (Int × α)) (k : Int) (v : α) :
    assocGet (assocSet l k v) k = some v := by
  induction l with
  | nil => simp [assocSet, assocGet]
  | cons p rest ih =>
      obtain ⟨k', v'⟩ := p
      by_cases h : k' = k <;> simp [assocSet, assocGet, h, ih]

theorem assocGet_assocSet_ne {α : Type} (l : List (Int × α)) (k k' : Int) (v : α)
    (h : k' ≠ k) : assocGet (assocSet l k v) k' = assocGet l k' := by
  induction l with
  | nil => simp [assocSet, assocGet, Ne.symm h]
  | cons p rest ih =>
      obtain ⟨k'', v''⟩ := p
      by_cases h2 : k'' = k <;> by_cases h3 : k'' = k' <;>
        simp_all [assocSet, assocGet, Ne.symm h]

theorem assocSet_assocSet {α : Type} (l : List (Int × α)) (k : Int) (v w : α) :
    assocSet (assocSet l k v) k w = assocSet l k w := by
  induction l with
  | nil => simp [assocSet]
  | cons p rest ih =>
      obtain ⟨k', v'⟩ := p
      by_cases h : k' = k <;> simp [assocSet, h, ih]

theorem send_attempts_total (max_retries : Nat) (retry_delay : ℚ)
    (sender : Nat → SendOutcome) (user_id : Int) (l : List Nat) :
    ∀ (res : BroadcastResult) (st : Storage) (calls : Nat) (sleeps : List ℚ),
      (send_attempts max_retries retry_delay sender user_id l res st calls
        sleeps).result.total = res.total := by
  induction l with
  | nil => intro res st calls sleeps; rfl
  | cons a rest ih =>
      intro res st calls sleeps
      simp only [send_attempts]
      cases sender a with
      | ok => simp [BroadcastResult.add_success]
      | forbidden msg => simp [BroadcastResult.add_failure]
      | retryAfter s => exact ih ..
      | apiError msg =>
          by_cases hb : a < max_retries - 1 <;>
            simp [hb, ih, BroadcastResult.add_failure]
      | unexpected msg => simp [BroadcastResult.add_failure]

theorem send_attempts_counts (max_retries : Nat) (retry_delay : ℚ)
    (sender : Nat → SendOutcome) (user_id : Int) (l : List Nat) :
    ∀ (res : BroadcastResult) (st : Storage) (calls : Nat) (sleeps : List ℚ),
      (send_attempts max_retries retry_delay sender user_id l res st
          calls sleeps).result.successful +
        (send_attempts max_retries retry_delay sender user_id l res st
          calls sleeps).result.failed ≤
        res.successful + res.failed + 1 := by
  induction l with
  | nil => intro res st calls sleeps; simp [send_attempts]
  | cons a rest ih =>
      intro res st calls sleeps
      simp only [send_attempts]
      cases sender a with
      | ok => simp [BroadcastResult.add_success]; omega
      | forbidden msg => simp [BroadcastResult.add_failure]; omega
      | retryAfter s => exact le_trans (ih ..) (by omega)
      | apiError msg =>
          by_cases hb : a < max_retries - 1
          · simpa [hb] using le_trans (ih ..) (by omega)
          · simp [hb, BroadcastResult.add_failure]; omega
      | unexpected msg => simp [BroadcastResult.add_failure]; omega

theorem send_attempts_retryAfter (max_retries : Nat) (retry_delay : ℚ)
    (sender : Nat → SendOutcome) (n : Nat → Nat) (user_id : Int) (l : List Nat)
    (hs : ∀ i ∈ l, sender i = .retryAfter (n i)) :
    ∀ (res : BroadcastResult) (st : Storage) (calls : Nat) (sleeps : List ℚ),
      send_attempts max_retries retry_delay sender user_id l res st calls sleeps =
        ⟨false, res, st, calls + l.length,
          sleeps ++ l.map (fun i => ((n i : Nat) : ℚ))⟩ := by
  induction l with
  | nil => intro res st calls sleeps; simp [send_attempts]
  | cons a rest ih =>
      intro res st calls sleeps
      have ha : sender a = .retryAfter (n a) := hs a (by simp)
      have ih' := ih (fun i hi => hs i (by simp [hi]))
      simp only [send_attempts, ha, ih', SendRet.mk.injEq, List.map_cons,
        List.length_cons, List.append_assoc, List.singleton_append, true_and,
        and_true]
      omega

theorem send_attempts_apiError (max_retries : Nat) (retry_delay : ℚ)
    (sender : Nat → SendOutcome) (m : Nat → String) (user_id : Int) :
    ∀ (len a calls : Nat) (res : BroadcastResult) (st : Storage) (sleeps : List ℚ),
      a + len = max_retries → 0 < len →
      (∀ i, a ≤ i → i < max_retries → sender i = .apiError (m i)) →
      send_attempts max_retries retry_delay sender user_id (List.range' a len)
          res st calls sleeps =
        ⟨false, res.add_failure user_id (m (max_retries - 1)), st, calls + len,
          sleeps ++ (List.range' a (len - 1)).map
            (fun i : Nat => retry_delay * ((i : ℚ) + 1))⟩ := by
  intro len
  induction len with
  | zero => intro a calls res st sleeps _ h0; omega
  | succ len' ih =>
      intro a calls res st sleeps hsum _
      intro hs
      have ha : sender a = .apiError (m a) := hs a (Nat.le_refl a) (by omega)
      rcases Nat.eq_zero_or_pos len' with hl | hl
      · subst hl
        have haeq : a = max_retries - 1 := by omega
        subst haeq
        have hnot : ¬ max_retries - 1 < max_retries - 1 := by omega
        simp [List.range'_succ, send_attempts, ha, hnot]
      · have hlt : a < max_retries - 1 := by omega
        have ih' := ih (a + 1) (calls + 1) res st
          (sleeps ++ [retry_delay * (a + 1)]) (by omega) hl
          (fun i hi hi' => hs i (by omega) hi')
        have hr : List.range' a (len' + 1 - 1) =
            a :: List.range' (a + 1) (len' - 1) := by
          have h2 : len' + 1 - 1 = (len' - 1) + 1 := by omega
          rw [h2, List.range'_succ]
        simp only [List.range'_succ, send_attempts, ha, if_pos hlt, ih', hr,
          SendRet.mk.injEq, List.map_cons, List.append_assoc,
          List.singleton_append, true_and, and_true]
        omega

/-- `_send_with_retry` never changes `total`. -/
theorem send_with_retry_total (max_retries : Nat) (retry_delay : ℚ)
    (sender : Nat → SendOutcome) (user_id : Int) (res : BroadcastResult)
    (st : Storage) :
    (send_with_retry max_retries retry_delay sender user_id res st).result.total
      = res.total :=
  send_attempts_total ..

/-- One `_send_with_retry` call records at most one success-or-failure. -/
theorem send_with_retry_counts (max_retries : Nat) (retry_delay : ℚ)
    (sender : Nat → SendOutcome) (user_id : Int) (res : BroadcastResult)
    (st : Storage) :
    (send_with_retry max_retries retry_delay sender user_id res st).result.successful
        + (send_with_retry max_retries retry_delay sender user_id res st).result.failed
      ≤ res.successful + res.failed + 1 :=
  send_attempts_counts ..

theorem broadcast_loop_total (max_retries : Nat) (retry_delay : ℚ)
    (sender : Int → Nat → SendOutcome) (interference : Nat → Storage → Storage)
    (ids : List Int) :
    ∀ (i : Nat) (res : BroadcastResult) (st : Storage),
      (broadcast_loop max_retries retry_delay sender interference ids i res
        st).1.total = res.total := by
  induction ids with
  | nil => intro i res st; rfl
  | cons u rest ih =>
      intro i res st
      simp only [broadcast_loop]
      rw [ih, send_with_retry_total]

theorem broadcast_loop_counts (max_retries : Nat) (retry_delay : ℚ)
    (sender : Int → Nat → SendOutcome) (interference : Nat → Storage → Storage)
    (ids : List Int) :
    ∀ (i : Nat) (res : BroadcastResult) (st : Storage),
      (broadcast_loop max_retries retry_delay sender interference ids i res
          st).1.successful +
        (broadcast_loop max_retries retry_delay sender interference ids i res
          st).1.failed ≤
        res.successful + res.failed + ids.length := by
  induction ids with
  | nil => intro i res st; simp [broadcast_loop]
  | cons u rest ih =>
      intro i res st
      simp only [broadcast_loop]
      refine le_trans (ih ..) ?_
      have := send_with_retry_counts max_retries retry_delay (sender u) u res
        (interference i st)
      simp only [List.length_cons]
      omega

theorem taskGet_taskPop (l : List (String × BroadcastTask)) (k : String) :
    taskGet (taskPop l k) k = none := by
  induction l with
  | nil => rfl
  | cons p rest ih =>
      obtain ⟨k', v⟩ := p
      by_cases h : k' = k <;> simp_all [taskPop, taskGet, List.filter_cons, h]

/-- Shape of a `_broadcast` call that passes the guard and whose snapshot
succeeds. -/
theorem broadcast_run_not_in_progress (max_retries : Nat) (retry_delay : ℚ)
    (sender : Int → Nat → SendOutcome) (only_active : Bool)
    (interference : Nat → Storage → Storage) (storage : Storage) :
    broadcast_run max_retries retry_delay sender only_active none interference
        ⟨storage, false⟩ =
      ⟨.ok (broadcast_loop max_retries retry_delay sender interference
          (get_all_subscriber_ids storage
            (if only_active then some .member else none)) 1
          { total := (get_all_subscriber_ids storage
              (if only_active then some .member else none)).length } storage).1,
        ⟨(broadcast_loop max_retries retry_delay sender interference
          (get_all_subscriber_ids storage
            (if only_active then some .member else none)) 1
          { total := (get_all_subscriber_ids storage
              (if only_active then some .member else none)).length } storage).2,
          false⟩,
        get_all_subscriber_ids storage
          (if only_active then some .member else none)⟩ := rfl

/-! ## The claims -/

/-- C1: every `_broadcast` call (and hence every `broadcast_*` wrapper,
each of which delegates to `_broadcast`) raises `BroadcastInProgressError`
immediately when the in-progress flag is set, leaving the storage and the
flag untouched; otherwise it sets the flag and the flag is cleared on every
exit path of the call — both when it returns a `BroadcastResult` and when
the snapshot raises a storage error. -/
theorem C1_single_flight_guard (max_retries : Nat) (retry_delay : ℚ)
    (sender : Int → Nat → SendOutcome) (only_active : Bool)
    (snapshot_fault : Option String) (m : String)
    (interference : Nat → Storage → Storage) (storage : Storage) :
    broadcast_run max_retries retry_delay sender only_active snapshot_fault
        interference ⟨storage, true⟩ =
      ⟨.error (.inProgress "Another broadcast is already in progress"),
        ⟨storage, true⟩, []⟩
    ∧ (broadcast_run max_retries retry_delay sender only_active snapshot_fault
        interference ⟨storage, false⟩).state.in_progress = false
    ∧ broadcast_run max_retries retry_delay sender only_active (some m)
        interference ⟨storage, false⟩ =
      ⟨.error (.storageFault m), ⟨storage, false⟩, []⟩ := by
  refine ⟨rfl, ?_, rfl⟩
  cases snapshot_fault with
  | some m' => rfl
  | none => rw [broadcast_run_not_in_progress]

/-- C5: the target identity list is fetched from storage exactly once, at
the start of `_broadcast` (filtered to `MEMBER` when `only_active`), and
`Result.total` is fixed to its length; neither the set of attempted
recipients nor `total` depends on the sender's behaviour or on any
concurrent storage mutation (`interference`) during the run. -/
theorem C5_snapshot_fixation (max_retries : Nat) (retry_delay : ℚ)
    (sender : Int → Nat → SendOutcome) (only_active : Bool)
    (interference : Nat → Storage → Storage) (storage : Storage) :
    (broadcast_run max_retries retry_delay sender only_active none
        interference ⟨storage, false⟩).attempted =
      get_all_subscriber_ids storage
        (if only_active then some .member else none)
    ∧ ∃ res,
        (broadcast_run max_retries retry_delay sender only_active none
          interference ⟨storage, false⟩).outcome = .ok res ∧
        res.total = (get_all_subscriber_ids storage
          (if only_active then some .member else none)).length := by
  rw [broadcast_run_not_in_progress]
  exact ⟨rfl, _, rfl, broadcast_loop_total ..⟩

/-- C10: every completed broadcast run satisfies
`successful + failed ≤ total` (each processed recipient records at most one
of `add_success` / `add_failure`), and the bound is strict for some sender
behaviour: a recipient whose sender raises `TelegramRetryAfter` on all
`max_retries` attempts is left unrecorded — it appears in neither `errors`
nor `blocked_users`. -/
theorem C10_counter_conservation (max_retries : Nat) (retry_delay : ℚ)
    (sender : Int → Nat → SendOutcome) (only_active : Bool)
    (snapshot_fault : Option String) (interference : Nat → Storage → Storage)
    (s : ServiceState) (res : BroadcastResult)
    (h : (broadcast_run max_retries retry_delay sender only_active
        snapshot_fault interference s).outcome = .ok res) :
    res.successful + res.failed ≤ res.total
    ∧ ∃ r, (broadcast_run 3 1 (fun _ _ => .retryAfter 1) true none
          (fun _ st => st)
          ⟨[(7, ⟨7, "U", none, none, .member, ""⟩)], false⟩).outcome = .ok r
        ∧ r.successful + r.failed < r.total
        ∧ r.errors = [] ∧ r.blocked_users = [] := by
  constructor
  · obtain ⟨storage, ip⟩ := s
    cases ip with
    | true => exact absurd h (by simp [broadcast_run])
    | false =>
        cases snapshot_fault with
        | some m => exact absurd h (by simp [broadcast_run])
        | none =>
            rw [broadcast_run_not_in_progress] at h
            simp only [Except.ok.injEq] at h
            subst h
            have hc := broadcast_loop_counts max_retries retry_delay sender
              interference
              (get_all_subscriber_ids storage
                (if only_active then some .member else none)) 1
              { total := (get_all_subscriber_ids storage
                  (if only_active then some .member else none)).length }
              storage
            have ht := broadcast_loop_total max_retries retry_delay sender
              interference
              (get_all_subscriber_ids storage
                (if only_active then some .member else none)) 1
              { total := (get_all_subscriber_ids storage
                  (if only_active then some .member else none)).length }
              storage
            simp only [ht]
            simpa using hc
  · exact ⟨⟨1, 0, 0, [], []⟩, rfl, by decide, rfl, rfl⟩

/-- Witness for C10: a concrete completed run (one active subscriber, the
send succeeds) on which the hypothesis of `C10_counter_conservation`
holds. -/
theorem C10_counter_conservation_witness :
    (broadcast_run 3 1 (fun _ _ => .ok) true none (fun _ st => st)
        ⟨[(8, ⟨8, "V", none, none, .member, ""⟩)], false⟩).outcome =
      .ok ⟨1, 1, 0, [], []⟩
    ∧ ((1 : Nat) + 0 ≤ 1
        ∧ ∃ r, (broadcast_run 3 1 (fun _ _ => .retryAfter 1) true none
              (fun _ st => st)
              ⟨[(7, ⟨7, "U", none, none, .member, ""⟩)], false⟩).outcome = .ok r
            ∧ r.successful + r.failed < r.total
            ∧ r.errors = [] ∧ r.blocked_users = []) :=
  ⟨rfl, C10_counter_conservation 3 1 (fun _ _ => .ok) true none (fun _ st => st)
    ⟨[(8, ⟨8, "V", none, none, .member, ""⟩)], false⟩ ⟨1, 1, 0, [], []⟩ rfl⟩

/-- C2 counterexample: with `max_retries = 3` and a sender that raises
`TelegramRetryAfter(2)` on every attempt, `_send_with_retry` invokes the
sender exactly 3 times (each rate-limit retry consumes an attempt of the
`range(self._max_retries)` loop), sleeps 2 seconds each time, and then
returns `False` with the recipient left unrecorded — contradicting the
claim that rate-limit retries do not count against the retry budget, that
the recipient is retried indefinitely until the signal stops recurring, and
that a recipient is never left unrecorded by rate-limit signals alone. -/
theorem C2_counterexample :
    (send_with_retry 3 1 (fun _ => .retryAfter 2) 42 {} []).calls = 3
    ∧ (send_with_retry 3 1 (fun _ => .retryAfter 2) 42 {} []).success = false
    ∧ (send_with_retry 3 1 (fun _ => .retryAfter 2) 42 {} []).sleeps = [2, 2, 2]
    ∧ (send_with_retry 3 1 (fun _ => .retryAfter 2) 42 {} []).result =
        ({} : BroadcastResult) :=
  ⟨rfl, rfl, by norm_num [send_with_retry, send_attempts, List.range], rfl⟩

/-- C2 amended: on `TelegramRetryAfter` the engine sleeps `retry_after`
seconds and retries the same recipient, but each such retry consumes an
attempt of the `max_retries` budget; a sender that raises the rate-limit
signal on every attempt is invoked exactly `max_retries` times, each raised
`retry_after` value is slept once, and `_send_with_retry` then returns
`False` with the result accumulator and the storage unchanged — the
recipient is recorded nowhere. -/
theorem C2_retry_after_consumes_budget (max_retries : Nat) (retry_delay : ℚ)
    (sender : Nat → SendOutcome) (n : Nat → Nat) (user_id : Int)
    (res : BroadcastResult) (st : Storage)
    (hs : ∀ i, i < max_retries → sender i = .retryAfter (n i)) :
    send_with_retry max_retries retry_delay sender user_id res st =
      ⟨false, res, st, max_retries,
        (List.range max_retries).map (fun i : Nat => ((n i : Nat) : ℚ))⟩ := by
  unfold send_with_retry
  rw [send_attempts_retryAfter max_retries retry_delay sender n user_id _
    (fun i hi => hs i (List.mem_range.mp hi))]
  simp

/-- Witness for C2 (amended): the concrete always-rate-limited sender. -/
theorem C2_retry_after_consumes_budget_witness :
    (∀ i, i < 3 →
      (fun _ : Nat => SendOutcome.retryAfter 2) i =
        .retryAfter ((fun _ : Nat => 2) i))
    ∧ send_with_retry 3 1 (fun _ => .retryAfter 2) 43 {} [] =
        ⟨false, {}, [], 3,
          (List.range 3).map (fun i : Nat => (((fun _ : Nat => 2) i : Nat) : ℚ))⟩ :=
  ⟨fun _ _ => rfl,
    C2_retry_after_consumes_budget 3 1 (fun _ => .retryAfter 2)
      (fun _ => 2) 43 {} [] (fun _ _ => rfl)⟩

/-- C3: a recipient whose sender raises a transient `TelegramAPIError` on
every attempt is tried exactly `max_retries` times, with a sleep of
`retry_delay × k` between the `k`-th and `(k+1)`-th attempts
(`k = 1 .. max_retries - 1`, the linearly increasing backoff), and is then
recorded as failed exactly once: `failed` grows by exactly 1 and `errors`
gets the single entry for that identity, carrying the last attempt's error
text. -/
theorem C3_transient_retry_exhaustion (max_retries : Nat) (retry_delay : ℚ)
    (sender : Nat → SendOutcome) (m : Nat → String) (user_id : Int)
    (res : BroadcastResult) (st : Storage) (hpos : 0 < max_retries)
    (hs : ∀ i, i < max_retries → sender i = .apiError (m i)) :
    send_with_retry max_retries retry_delay sender user_id res st =
      ⟨false, res.add_failure user_id (m (max_retries - 1)), st, max_retries,
        (List.range (max_retries - 1)).map
          (fun i : Nat => retry_delay * ((i : ℚ) + 1))⟩
    ∧ (send_with_retry max_retries retry_delay sender user_id res
        st).result.failed = res.failed + 1
    ∧ (send_with_retry max_retries retry_delay sender user_id res
        st).result.successful = res.successful
    ∧ assocGet (send_with_retry max_retries retry_delay sender user_id res
        st).result.errors user_id = some (m (max_retries - 1)) := by
  have hmain : send_with_retry max_retries retry_delay sender user_id res st =
      ⟨false, res.add_failure user_id (m (max_retries - 1)), st, max_retries,
        (List.range (max_retries - 1)).map
          (fun i : Nat => retry_delay * ((i : ℚ) + 1))⟩ := by
    unfold send_with_retry
    rw [List.range_eq_range']
    rw [send_attempts_apiError max_retries retry_delay sender m user_id
      max_retries 0 0 res st [] (by omega) hpos (fun i _ hi => hs i hi)]
    simp [List.range_eq_range']
  refine ⟨hmain, ?_, ?_, ?_⟩ <;>
    simp [hmain, BroadcastResult.add_failure, assocGet_assocSet_eq]

/-- Witness for C3: `max_retries = 3`, always-transient sender. -/
theorem C3_transient_retry_exhaustion_witness :
    0 < 3
    ∧ (∀ i, i < 3 →
        (fun _ : Nat => SendOutcome.apiError "boom") i =
          .apiError ((fun _ : Nat => "boom") i))
    ∧ ((send_with_retry 3 1 (fun _ => .apiError "boom") 9 {} [] =
          ⟨false, BroadcastResult.add_failure {} 9
              ((fun _ : Nat => "boom") (3 - 1)), [], 3,
            (List.range (3 - 1)).map
              (fun i : Nat => 1 * ((i : ℚ) + 1))⟩)
        ∧ (send_with_retry 3 1 (fun _ => .apiError "boom") 9 {} []).result.failed
            = ({} : BroadcastResult).failed + 1
        ∧ (send_with_retry 3 1 (fun _ => .apiError "boom") 9 {}
            []).result.successful = ({} : BroadcastResult).successful
        ∧ assocGet (send_with_retry 3 1 (fun _ => .apiError "boom") 9 {}
            []).result.errors 9 = some ((fun _ : Nat => "boom") (3 - 1))) :=
  ⟨by decide, fun _ _ => rfl,
    C3_transient_retry_exhaustion 3 1 (fun _ => .apiError "boom")
      (fun _ => "boom") 9 {} [] (by decide) (fun _ _ => rfl)⟩

/-- C4 counterexample: `TelegramForbiddenError` whose error text contains
neither `"blocked"` nor `"kicked"` (here Telegram's real
`"Forbidden: user is deactivated"`): the recipient is recorded as failed
and not retried, but the registry record keeps state `MEMBER` and
`blocked_users` stays empty — contradicting the claim that every
`TelegramForbiddenError` leads to a `KICKED` record and an entry in
`blocked_users`. -/
theorem C4_counterexample :
    (send_with_retry 3 1 (fun _ => .forbidden "Forbidden: user is deactivated")
      5 {} [(5, ⟨5, "X", none, none, .member, ""⟩)]).result.failed = 1
    ∧ (send_with_retry 3 1
        (fun _ => .forbidden "Forbidden: user is deactivated") 5 {}
        [(5, ⟨5, "X", none, none, .member, ""⟩)]).result.blocked_users = []
    ∧ get_subscriber (send_with_retry 3 1
        (fun _ => .forbidden "Forbidden: user is deactivated") 5 {}
        [(5, ⟨5, "X", none, none, .member, ""⟩)]).storage 5 =
        some ⟨5, "X", none, none, .member, ""⟩
    ∧ (send_with_retry 3 1
        (fun _ => .forbidden "Forbidden: user is deactivated") 5 {}
        [(5, ⟨5, "X", none, none, .member, ""⟩)]).calls = 1 :=
  ⟨by decide, by decide, by decide, by decide⟩

/-- C4 amended: on `TelegramForbiddenError` the recipient is not retried
(exactly one sender call) and is recorded as failed with the error text;
the registry record is set to `KICKED` and the recipient appended to
`blocked_users` exactly when the error text contains `"blocked"` or
`"kicked"` (case-insensitively); otherwise the registry and
`blocked_users` are left unchanged. -/
theorem C4_permanent_rejection (max_retries : Nat) (retry_delay : ℚ)
    (sender : Nat → SendOutcome) (msg : String) (sub : Subscriber)
    (res : BroadcastResult) (st : Storage)
    (hpos : 0 < max_retries) (hs : sender 0 = .forbidden msg)
    (hsub : get_subscriber st sub.id = some sub) :
    (send_with_retry max_retries retry_delay sender sub.id res st).calls = 1
    ∧ (send_with_retry max_retries retry_delay sender sub.id res st).success
        = false
    ∧ (send_with_retry max_retries retry_delay sender sub.id res
        st).result.failed = res.failed + 1
    ∧ assocGet (send_with_retry max_retries retry_delay sender sub.id res
        st).result.errors sub.id = some msg
    ∧ (isBlockedMsg msg = true →
        (send_with_retry max_retries retry_delay sender sub.id res
          st).result.blocked_users = res.blocked_users ++ [sub.id]
        ∧ get_subscriber (send_with_retry max_retries retry_delay sender sub.id
            res st).storage sub.id = some { sub with state := .kicked })
    ∧ (isBlockedMsg msg = false →
        (send_with_retry max_retries retry_delay sender sub.id res
          st).result.blocked_users = res.blocked_users
        ∧ (send_with_retry max_retries retry_delay sender sub.id res
            st).storage = st) := by
  obtain ⟨k, rfl⟩ : ∃ k, max_retries = k + 1 := ⟨max_retries - 1, by omega⟩
  have hrange : List.range (k + 1) = 0 :: List.range' 1 k := by
    rw [List.range_eq_range', List.range'_succ]
  have hred : send_with_retry (k + 1) retry_delay sender sub.id res st =
      ⟨false, res.add_failure sub.id msg (isBlockedMsg msg),
        if isBlockedMsg msg then (update_subscriber_state st sub.id .kicked).1
        else st,
        1, []⟩ := by
    unfold send_with_retry
    rw [hrange]
    simp [send_attempts, hs]
  rw [hred]
  refine ⟨rfl, rfl, rfl, ?_, ?_, ?_⟩
  · simp [BroadcastResult.add_failure, assocGet_assocSet_eq]
  · intro hb
    refine ⟨by simp [BroadcastResult.add_failure, hb], ?_⟩
    have hsub' : assocGet st sub.id = some sub := hsub
    simp [hb, update_subscriber_state, hsub', update_subscriber,
      add_subscriber, get_subscriber, assocGet_assocSet_eq]
  · intro hb
    exact ⟨by simp [BroadcastResult.add_failure, hb], by simp [hb]⟩

/-- Witness for C4 (amended): the blocked-text case, a one-subscriber
registry. -/
theorem C4_permanent_rejection_witness :
    0 < 3
    ∧ (fun _ : Nat => SendOutcome.forbidden
        "Forbidden: bot was blocked by the user") 0 =
      .forbidden "Forbidden: bot was blocked by the user"
    ∧ get_subscriber [((5 : Int), ⟨5, "X", none, none, .member, ""⟩)]
        (Subscriber.id ⟨5, "X", none, none, .member, ""⟩) =
      some ⟨5, "X", none, none, .member, ""⟩
    ∧ ((send_with_retry 3 1
          (fun _ => .forbidden "Forbidden: bot was blocked by the user")
          (Subscriber.id ⟨5, "X", none, none, .member, ""⟩) {}
          [((5 : Int), ⟨5, "X", none, none, .member, ""⟩)]).calls = 1
        ∧ (send_with_retry 3 1
            (fun _ => .forbidden "Forbidden: bot was blocked by the user")
            (Subscriber.id ⟨5, "X", none, none, .member, ""⟩) {}
            [((5 : Int), ⟨5, "X", none, none, .member, ""⟩)]).success = false
        ∧ (send_with_retry 3 1
            (fun _ => .forbidden "Forbidden: bot was blocked by the user")
            (Subscriber.id ⟨5, "X", none, none, .member, ""⟩) {}
            [((5 : Int), ⟨5, "X", none, none, .member,
              ""⟩)]).result.failed = ({} : BroadcastResult).failed + 1
        ∧ assocGet (send_with_retry 3 1
            (fun _ => .forbidden "Forbidden: bot was blocked by the user")
            (Subscriber.id ⟨5, "X", none, none, .member, ""⟩) {}
            [((5 : Int), ⟨5, "X", none, none, .member, ""⟩)]).result.errors
            (Subscriber.id ⟨5, "X", none, none, .member, ""⟩) =
          some "Forbidden: bot was blocked by the user"
        ∧ (isBlockedMsg "Forbidden: bot was blocked by the user" = true →
            (send_with_retry 3 1
              (fun _ => .forbidden "Forbidden: bot was blocked by the user")
              (Subscriber.id ⟨5, "X", none, none, .member, ""⟩) {}
              [((5 : Int), ⟨5, "X", none, none, .member,
                ""⟩)]).result.blocked_users =
              ({} : BroadcastResult).blocked_users ++
                [Subscriber.id ⟨5, "X", none, none, .member, ""⟩]
            ∧ get_subscriber (send_with_retry 3 1
                (fun _ => .forbidden "Forbidden: bot was blocked by the user")
                (Subscriber.id ⟨5, "X", none, none, .member, ""⟩) {}
                [((5 : Int), ⟨5, "X", none, none, .member, ""⟩)]).storage
                (Subscriber.id ⟨5, "X", none, none, .member, ""⟩) =
              some { (⟨5, "X", none, none, .member, ""⟩ : Subscriber) with
                state := .kicked })
        ∧ (isBlockedMsg "Forbidden: bot was blocked by the user" = false →
            (send_with_retry 3 1
              (fun _ => .forbidden "Forbidden: bot was blocked by the user")
              (Subscriber.id ⟨5, "X", none, none, .member, ""⟩) {}
              [((5 : Int), ⟨5, "X", none, none, .member,
                ""⟩)]).result.blocked_users =
              ({} : BroadcastResult).blocked_users
            ∧ (send_with_retry 3 1
                (fun _ => .forbidden "Forbidden: bot was blocked by the user")
                (Subscriber.id ⟨5, "X", none, none, .member, ""⟩) {}
                [((5 : Int), ⟨5, "X", none, none, .member, ""⟩)]).storage =
              [((5 : Int), ⟨5, "X", none, none, .member, ""⟩)])) :=
  ⟨by decide, rfl, rfl,
    C4_permanent_rejection 3 1
      (fun _ => .forbidden "Forbidden: bot was blocked by the user")
      "Forbidden: bot was blocked by the user"
      ⟨5, "X", none, none, .member, ""⟩ {}
      [((5 : Int), ⟨5, "X", none, none, .member, ""⟩)]
      (by decide) rfl rfl⟩

/-- C6 counterexample: `RedisBroadcastStorage.add_subscriber` on an
identity that is already present does not fail — no `DuplicateIdentity`
error exists anywhere in the library — and it does not leave the stored
record unchanged: the `HSET` silently overwrites the old record. -/
theorem C6_counterexample :
    get_subscriber
        (add_subscriber [(5, ⟨5, "Alice", none, none, .member, ""⟩)]
          ⟨5, "Bob", none, none, .member, ""⟩) 5 =
      some ⟨5, "Bob", none, none, .member, ""⟩
    ∧ (⟨5, "Bob", none, none, .member, ""⟩ : Subscriber) ≠
        ⟨5, "Alice", none, none, .member, ""⟩ :=
  ⟨rfl, by decide⟩

/-- C6 amended: `add_subscriber` is an unconditional upsert: after the
call the stored record for the subscriber's identity is the new record
(whether or not the identity was already present), every other identity's
record is untouched, and the operation never fails. -/
theorem C6_add_subscriber_upsert (st : Storage) (sub : Subscriber) (k : Int)
    (h : k ≠ sub.id) :
    get_subscriber (add_subscriber st sub) sub.id = some sub
    ∧ get_subscriber (add_subscriber st sub) k = get_subscriber st k :=
  ⟨assocGet_assocSet_eq .., assocGet_assocSet_ne _ _ _ _ h⟩

/-- Witness for C6 (amended). -/
theorem C6_add_subscriber_upsert_witness :
    (6 : Int) ≠ Subscriber.id ⟨5, "Bob", none, none, .member, ""⟩
    ∧ (get_subscriber
          (add_subscriber [((5 : Int), ⟨5, "Alice", none, none, .member, ""⟩)]
            ⟨5, "Bob", none, none, .member, ""⟩)
          (Subscriber.id ⟨5, "Bob", none, none, .member, ""⟩) =
        some ⟨5, "Bob", none, none, .member, ""⟩
      ∧ get_subscriber
          (add_subscriber [((5 : Int), ⟨5, "Alice", none, none, .member, ""⟩)]
            ⟨5, "Bob", none, none, .member, ""⟩) 6 =
        get_subscriber [((5 : Int), ⟨5, "Alice", none, none, .member, ""⟩)] 6) :=
  ⟨by decide,
    C6_add_subscriber_upsert [((5 : Int), ⟨5, "Alice", none, none, .member, ""⟩)]
      ⟨5, "Bob", none, none, .member, ""⟩ 6 (by decide)⟩

/-- C9: retiring a subscriber (`update_subscriber_state(X, KICKED)`) is
idempotent on every registry state: applying it twice — e.g. via permanent
rejections in two separate broadcast runs — yields exactly the state (and
return flag) of applying it once. -/
theorem C9_retirement_idempotent (st : Storage) (user_id : Int) :
    update_subscriber_state
        (update_subscriber_state st user_id .kicked).1 user_id .kicked =
      update_subscriber_state st user_id .kicked := by
  rcases h : get_subscriber st user_id with _ | sub
  · have h' : assocGet st user_id = none := h
    simp [update_subscriber_state, get_subscriber, h']
  · have h' : assocGet st user_id = some sub := h
    by_cases hid : sub.id = user_id
    · subst hid
      simp [update_subscriber_state, get_subscriber, h', update_subscriber,
        add_subscriber, assocGet_assocSet_eq, assocSet_assocSet]
    · have hne : user_id ≠ sub.id := fun hh => hid hh.symm
      simp [update_subscriber_state, get_subscriber, h', update_subscriber,
        add_subscriber, assocGet_assocSet_ne _ _ _ _ hne, assocSet_assocSet]

/-- C7: on a `BroadcastScheduler` constructed without an APScheduler
backend, `schedule_text`, `schedule_photo`, `schedule_copy` and `cancel`
each raise `SchedulerNotConfiguredError` and leave the scheduler state —
in particular the pending-task table and the registered jobs — exactly as
it was: no state is mutated and no job is registered. -/
theorem C7_scheduler_not_configured (s : SchedulerState)
    (h : s.configured = false) (task_id text photo : String)
    (from_chat_id message_id run_date : Int) :
    schedule_text task_id text run_date s =
      (.error (.notConfigured
        "APScheduler is not configured. Pass scheduler to constructor."), s)
    ∧ schedule_photo task_id photo run_date s =
      (.error (.notConfigured
        "APScheduler is not configured. Pass scheduler to constructor."), s)
    ∧ schedule_copy task_id from_chat_id message_id run_date s =
      (.error (.notConfigured
        "APScheduler is not configured. Pass scheduler to constructor."), s)
    ∧ cancel task_id s =
      (.error (.notConfigured
        "APScheduler is not configured. Pass scheduler to constructor."), s) := by
  refine ⟨?_, ?_, ?_, ?_⟩ <;>
    simp [schedule_text, schedule_photo, schedule_copy, schedule_task, cancel,
      ensure_scheduler, h]

/-- Witness for C7: an unconfigured scheduler with a nonempty pending
table. -/
theorem C7_scheduler_not_configured_witness :
    SchedulerState.configured
        ⟨false, ["broadcast_0a1b2c3d"],
          [("broadcast_0a1b2c3d", ⟨"broadcast_0a1b2c3d", .text "hi", 100⟩)]⟩
      = false
    ∧ (schedule_text "broadcast_99999999" "hello" 200
          ⟨false, ["broadcast_0a1b2c3d"],
            [("broadcast_0a1b2c3d", ⟨"broadcast_0a1b2c3d", .text "hi", 100⟩)]⟩ =
        (.error (.notConfigured
          "APScheduler is not configured. Pass scheduler to constructor."),
          ⟨false, ["broadcast_0a1b2c3d"],
            [("broadcast_0a1b2c3d", ⟨"broadcast_0a1b2c3d", .text "hi", 100⟩)]⟩)
      ∧ schedule_photo "broadcast_99999999" "file123" 200
          ⟨false, ["broadcast_0a1b2c3d"],
            [("broadcast_0a1b2c3d", ⟨"broadcast_0a1b2c3d", .text "hi", 100⟩)]⟩ =
        (.error (.notConfigured
          "APScheduler is not configured. Pass scheduler to constructor."),
          ⟨false, ["broadcast_0a1b2c3d"],
            [("broadcast_0a1b2c3d", ⟨"broadcast_0a1b2c3d", .text "hi", 100⟩)]⟩)
      ∧ schedule_copy "broadcast_99999999" 11 22 200
          ⟨false, ["broadcast_0a1b2c3d"],
            [("broadcast_0a1b2c3d", ⟨"broadcast_0a1b2c3d", .text "hi", 100⟩)]⟩ =
        (.error (.notConfigured
          "APScheduler is not configured. Pass scheduler to constructor."),
          ⟨false, ["broadcast_0a1b2c3d"],
            [("broadcast_0a1b2c3d", ⟨"broadcast_0a1b2c3d", .text "hi", 100⟩)]⟩)
      ∧ cancel "broadcast_99999999"
          ⟨false, ["broadcast_0a1b2c3d"],
            [("broadcast_0a1b2c3d", ⟨"broadcast_0a1b2c3d", .text "hi", 100⟩)]⟩ =
        (.error (.notConfigured
          "APScheduler is not configured. Pass scheduler to constructor."),
          ⟨false, ["broadcast_0a1b2c3d"],
            [("broadcast_0a1b2c3d", ⟨"broadcast_0a1b2c3d", .text "hi", 100⟩)]⟩)) :=
  ⟨rfl,
    C7_scheduler_not_configured
      ⟨false, ["broadcast_0a1b2c3d"],
        [("broadcast_0a1b2c3d", ⟨"broadcast_0a1b2c3d", .text "hi", 100⟩)]⟩
      rfl "broadcast_99999999" "hello" "file123" 11 22 200⟩

/-- C8: for every fired scheduled task, exactly one of the completion /
error callbacks is invoked — the completion callback with
`(task_id, result)` when the dispatch call returns a result, the error
callback with `(task_id, error)` when it raises — never both; exceptions
raised by either callback are swallowed (nothing propagates into the timer
backend); and in every case the task is removed from the pending-task
table. -/
theorem C8_fire_exactly_once (dispatch : Except String BroadcastResult)
    (on_complete : Option (String → BroadcastResult → Option String))
    (on_error : Option (String → String → Option String))
    (task_id : String) (pending : List (String × BroadcastTask)) :
    (execute_broadcast dispatch on_complete on_error task_id pending).raised
      = none
    ∧ taskGet (execute_broadcast dispatch on_complete on_error task_id
        pending).pending_tasks task_id = none
    ∧ (execute_broadcast dispatch on_complete on_error task_id
        pending).completion_calls =
        (match dispatch, on_complete with
          | .ok r, some _ => [(task_id, r)]
          | _, _ => [])
    ∧ (execute_broadcast dispatch on_complete on_error task_id
        pending).error_calls =
        (match dispatch, on_error with
          | .error e, some _ => [(task_id, e)]
          | _, _ => [])
    ∧ ((execute_broadcast dispatch on_complete on_error task_id
          pending).completion_calls = []
        ∨ (execute_broadcast dispatch on_complete on_error task_id
            pending).error_calls = []) := by
  cases dispatch <;> cases on_complete <;> cases on_error <;>
    simp [execute_broadcast, handle_completion, handle_error, taskGet_taskPop]

end Broadcast
